import Mathlib

/-!
Shallow embedding of the fx-rollback bootstrap controller (src/main.go,
second revision: the one defining `LoaderConfig` with
`IgnoreFallbackConfig`).  Pure Go functions become Lean functions; the
file system holding the single `last_known_good_config` record becomes an
explicit `FileSys` value threaded through the functions; Go errors become
the inductive `GoErr` mirroring `errors.New`, `errors.Wrap`, the dig
container's own wrapping, and `BadConfigError`.
-/

set_option autoImplicit false

namespace FxRollback

/-- Mirrors Go `EchoHandlerConfig` (time.Duration as Int nanoseconds). -/
structure EchoHandlerConfig where
  responseTimeout : Int
deriving DecidableEq

/-- Mirrors Go `ServerConfig`. -/
structure ServerConfig where
  host : String
  port : Int
deriving DecidableEq

/-- Mirrors Go `SomeAppConfig`, the application config the loader treats as
an opaque payload (`Config.App`). -/
structure SomeAppConfig where
  echoHandler : EchoHandlerConfig
  server : ServerConfig
deriving DecidableEq

/-- Mirrors Go `LoaderConfig` (durations as Int nanoseconds). -/
structure LoaderConfig where
  usesFallbackConfig : Bool
  ignoreFallbackConfig : Bool
  configError : String
  startTimeout : Int
  stopTimeout : Int
deriving DecidableEq

/-- Mirrors Go `Config`: the embedded `LoaderConfig` plus the application
config pointed to by `Config.App` (pointer structure is modelled
separately, via `Heap`, where aliasing matters). -/
structure Config where
  loader : LoaderConfig
  app : SomeAppConfig
deriving DecidableEq

/-- Go error values as the controller observes them: `errorNew` is
`errors.New`/any leaf error, `wrap` is `pkg/errors.Wrap` (message plus
cause), `digWrap` is a wrapping layer added by the dig/fx container's own
internals, and `badConfig` is `BadConfigError{Cause}`. -/
inductive GoErr where
  | errorNew : String → GoErr
  | wrap : String → GoErr → GoErr
  | digWrap : String → GoErr → GoErr
  | badConfig : GoErr → GoErr
deriving DecidableEq

/-- Error text, mirroring each Go type's `Error()` method; in particular
`BadConfigError.Error` is the format string `bad config: %s` applied to
the cause (src/main.go lines 473-475). -/
def errorString : GoErr → String
  | GoErr.errorNew s => s
  | GoErr.wrap s e => s ++ ": " ++ errorString e
  | GoErr.digWrap s e => s ++ ": " ++ errorString e
  | GoErr.badConfig e => "bad config: " ++ errorString e

/-- Mirrors `dig.RootCause`: strips the container's own wrapping layers,
however many there are, and returns any other error as-is. -/
def digRootCause : GoErr → GoErr
  | GoErr.digWrap _ e => digRootCause e
  | e => e

/-- Mirrors Go `unwrapBadConfigError` (src/main.go lines 477-483): type
assertion of `dig.RootCause(err)` against `BadConfigError`; on success
returns the `BadConfigError` itself with `true`, otherwise the original
error unchanged with `false`. -/
def unwrapBadConfigError (e : GoErr) : GoErr × Bool :=
  match digRootCause e with
  | GoErr.badConfig c => (GoErr.badConfig c, true)
  | _ => (e, false)

/-- Does the error chain still contain a dig container wrapping layer? -/
def containsDigWrap : GoErr → Bool
  | GoErr.errorNew _ => false
  | GoErr.wrap _ e => containsDigWrap e
  | GoErr.digWrap _ _ => true
  | GoErr.badConfig e => containsDigWrap e

/-- One item of the gob stream `saveConfig` writes: the stream's type
header followed by field entries.  Faithful to encoding/gob in the two
respects the controller depends on: a field whose value is the zero value
is omitted from the stream, and decoding merges the transmitted fields
into the existing target value. -/
inductive GobItem where
  | header : GobItem
  | fieldRespTimeout : Int → GobItem
  | fieldHost : String → GobItem
  | fieldPort : Int → GobItem
deriving DecidableEq

/-- gob encoding of `SomeAppConfig`: header plus the non-zero fields. -/
def gobEncode (c : SomeAppConfig) : List GobItem :=
  GobItem.header ::
    ((if c.echoHandler.responseTimeout = 0 then []
      else [GobItem.fieldRespTimeout c.echoHandler.responseTimeout]) ++
     (if c.server.host = "" then [] else [GobItem.fieldHost c.server.host]) ++
     (if c.server.port = 0 then [] else [GobItem.fieldPort c.server.port]))

/-- Applying one transmitted field to the decode target. -/
def gobApplyItem (t : SomeAppConfig) : GobItem → SomeAppConfig
  | GobItem.header => t
  | GobItem.fieldRespTimeout v => { t with echoHandler := { responseTimeout := v } }
  | GobItem.fieldHost v => { t with server := { t.server with host := v } }
  | GobItem.fieldPort v => { t with server := { t.server with port := v } }

/-- gob decoding into an existing target value: an empty stream is an EOF
error, a stream not starting with the type header is corrupt, and a
well-formed stream merges its fields into the target. -/
def gobDecodeMerge : List GobItem → SomeAppConfig → Except GoErr SomeAppConfig
  | [], _ => Except.error (GoErr.errorNew "unexpected EOF")
  | GobItem.header :: items, t => Except.ok (items.foldl gobApplyItem t)
  | _ :: _, _ => Except.error (GoErr.errorNew "gob: corrupt input stream")

/-- The file `last_known_good_config`: absent, or present with a gob
stream as content. -/
abbrev FileSys := Option (List GobItem)

/-- Mirrors Go `loadLastKnownGoodConfig` (src/main.go lines 432-444):
opens the fallback record (a missing file becomes the distinguished
`errors.New` message) and gob-decodes it into the current `Config.App`
target. -/
def loadLastKnownGoodConfig (store : FileSys) (target : SomeAppConfig) :
    Except GoErr SomeAppConfig :=
  match store with
  | none => Except.error (GoErr.errorNew "last known good config does not exist")
  | some items => gobDecodeMerge items target

/-- Outcome of `os.Create` during `saveConfig`. -/
inductive CreateStep where
  | fails : CreateStep
  | ok : CreateStep
deriving DecidableEq

/-- Outcome of `gob.NewEncoder(f).Encode` during `saveConfig`. -/
inductive EncodeStep where
  | fails : EncodeStep
  | ok : EncodeStep
deriving DecidableEq

/-- Mirrors Go `saveConfig` (src/main.go lines 448-460): `os.Create`
truncates the file to empty before the encoder writes anything, so a
failing encode leaves the truncated file behind; only a fully successful
run leaves the fresh encoding.  Returns the resulting file system and the
returned error, if any. -/
def saveConfigRun (cs : CreateStep) (es : EncodeStep) (store : FileSys)
    (app : SomeAppConfig) : FileSys × Option GoErr :=
  match cs with
  | CreateStep.fails =>
      (store, some (GoErr.errorNew "open last_known_good_config: permission denied"))
  | CreateStep.ok =>
      match es with
      | EncodeStep.fails => (some [], some (GoErr.errorNew "gob: encoder write error"))
      | EncodeStep.ok => (some (gobEncode app), none)

/-- The file-system states reachable while `saveConfig` executes, in
program order: before `os.Create`, after `os.Create` (truncated to
empty), after the encode completes.  A crash interrupts the run at one of
these states. -/
def saveConfigFileStates (store : FileSys) (app : SomeAppConfig) : List FileSys :=
  [store, some [], some (gobEncode app)]

/-- `time.Second` in nanoseconds. -/
def timeSecond : Int := 1000000000

/-- Go constant `defaultLoaderStartTimeout = time.Second * 60`. -/
def defaultLoaderStartTimeout : Int := timeSecond * 60

/-- Go constant `defaultLoaderStopTimeout = time.Second * 60`. -/
def defaultLoaderStopTimeout : Int := timeSecond * 60

/-- The process environment as the loader consumes it, already typed:
the five LOADER_ variables `envconfig.Process` recognizes on
`LoaderConfig` and the outcome of `envconfig.Process` on the application
prefix — either the parsed application config or the parse error it
returns.  envconfig also fills exported fields WITHOUT an `envconfig`
tag, keyed by the upper-cased field name, so `UsesFallbackConfig` and
`ConfigError` are read from LOADER_USESFALLBACKCONFIG and
LOADER_CONFIGERROR; `none` models an unset variable. -/
structure Env where
  ignoreFallback : Option Bool
  startTimeout : Option Int
  stopTimeout : Option Int
  usesFallback : Option Bool
  configError : Option String
  appParse : Except GoErr SomeAppConfig

/-- Mirrors Go `initLoaderConfigFromEnv` (src/main.go lines 406-419):
`envconfig.Process` fills every exported field of `LoaderConfig` — the
tagged ones and, keyed by field name, the untagged `UsesFallbackConfig`
and `ConfigError` — leaving unset variables at the field's zero value;
then either timeout still equal to 0 is replaced by the 60-second
default. -/
def initLoaderConfigFromEnv (ignore uses : Option Bool) (cfgErr : Option String)
    (start : Option Int) (stop : Option Int) : LoaderConfig :=
  let st := start.getD 0
  let sp := stop.getD 0
  { usesFallbackConfig := uses.getD false
    ignoreFallbackConfig := ignore.getD false
    configError := cfgErr.getD ""
    startTimeout := if st = 0 then defaultLoaderStartTimeout else st
    stopTimeout := if sp = 0 then defaultLoaderStopTimeout else sp }

instance instDecEqExcept {ε α : Type} [DecidableEq ε] [DecidableEq α] :
    DecidableEq (Except ε α) := fun a b =>
  match a, b with
  | Except.error x, Except.error y => decidable_of_iff (x = y) (by simp)
  | Except.ok x, Except.ok y => decidable_of_iff (x = y) (by simp)
  | Except.error _, Except.ok _ => isFalse (by simp)
  | Except.ok _, Except.error _ => isFalse (by simp)

/-- What one run of `createApp` produced: the result (final composite
config on success, the returned error on failure), the list of configs
the fx container was asked to build from, in order (`fx.New` calls), and
how many times `loadLastKnownGoodConfig` opened the fallback store. -/
structure Outcome where
  result : Except GoErr Config
  buildArgs : List Config
  loadCalls : Nat
deriving DecidableEq

/-- The composite config of the first build attempt: the loader config
initialized from the environment plus the env-parsed application config. -/
def firstConfig (env : Env) (app0 : SomeAppConfig) : Config :=
  { loader := (initLoaderConfigFromEnv env.ignoreFallback env.usesFallback env.configError
      env.startTimeout env.stopTimeout)
    app := app0 }

/-- The loader config after rollback: `l.cfg.UsesFallbackConfig = true`
and `l.cfg.ConfigError = configError.Error()` (src/main.go lines
364-365), the rest unchanged. -/
def fallbackLoaderConfig (env : Env) (root : GoErr) : LoaderConfig :=
  { (initLoaderConfigFromEnv env.ignoreFallback env.usesFallback env.configError
      env.startTimeout env.stopTimeout) with
      usesFallbackConfig := true
      configError := errorString root }

/-- The composite config of the rebuild: rollback loader config plus the
fallback application config just decoded. -/
def fallbackConfig (env : Env) (root : GoErr) (app1 : SomeAppConfig) : Config :=
  { loader := fallbackLoaderConfig env root, app := app1 }

/-- Mirrors Go `createApp` (src/main.go lines 321-374).  `builder`
abstracts `fx.New(appOptions).Err()`: the error, if any, the container
reports for the composite config it is given (providers read the config
through `l.Config`, so each `fx.New` sees the loader's config at that
moment).  Control flow follows the source line by line: loader-config
init; env parse of the app config (failure returns wrapped, nothing
built); first build; `unwrapBadConfigError` classification; the
`IgnoreFallbackConfig` guard; fallback load (decoding into the current
app config value); recording `UsesFallbackConfig` and `ConfigError`; one
rebuild; any second failure returned wrapped. -/
def createApp (env : Env) (builder : Config → Option GoErr) (store : FileSys) :
    Outcome :=
  match env.appParse with
  | Except.error e =>
      { result := Except.error (GoErr.wrap "failed to load current config from env" e)
        buildArgs := []
        loadCalls := 0 }
  | Except.ok app0 =>
      match builder (firstConfig env app0) with
      | none =>
          { result := Except.ok (firstConfig env app0)
            buildArgs := [firstConfig env app0]
            loadCalls := 0 }
      | some e =>
          if (unwrapBadConfigError e).2 then
            if (firstConfig env app0).loader.ignoreFallbackConfig then
              { result := Except.error (GoErr.errorNew
                  "failed to create app with current config and fallback config is ignored")
                buildArgs := [firstConfig env app0]
                loadCalls := 0 }
            else
              match loadLastKnownGoodConfig store app0 with
              | Except.error e2 =>
                  { result := Except.error
                      (GoErr.wrap "failed to fall back to last known good config" e2)
                    buildArgs := [firstConfig env app0]
                    loadCalls := 1 }
              | Except.ok app1 =>
                  match builder (fallbackConfig env (unwrapBadConfigError e).1 app1) with
                  | some e3 =>
                      { result := Except.error
                          (GoErr.wrap "failed to create app with last known good config" e3)
                        buildArgs := [firstConfig env app0,
                          fallbackConfig env (unwrapBadConfigError e).1 app1]
                        loadCalls := 1 }
                  | none =>
                      { result := Except.ok (fallbackConfig env (unwrapBadConfigError e).1 app1)
                        buildArgs := [firstConfig env app0,
                          fallbackConfig env (unwrapBadConfigError e).1 app1]
                        loadCalls := 1 }
          else
            { result := Except.error (GoErr.wrap "failed to create app with current config" e)
              buildArgs := [firstConfig env app0]
              loadCalls := 0 }

/-- Mirrors Go `LoadApp` (src/main.go lines 311-319): runs `createApp`
and surfaces its result. -/
def LoadApp (env : Env) (builder : Config → Option GoErr) (store : FileSys) :
    Except GoErr Config :=
  (createApp env builder store).result

/-- What one run of `Start` produced: the resulting file system, the
returned error if any, and how many times `saveConfig` was invoked. -/
structure StartOutcome where
  store : FileSys
  result : Except GoErr Unit
  saveCalls : Nat
deriving DecidableEq

/-- Mirrors the persistence decision of Go `Start` (src/main.go lines
376-396): when `UsesFallbackConfig` is false, `saveConfig` runs with the
loader's current config and a failure aborts `Start` with the wrapped
error; when it is true, `saveConfig` is skipped and `Start` waits for the
app and returns nil. -/
def startRun (cfg : Config) (cs : CreateStep) (es : EncodeStep) (store : FileSys) :
    StartOutcome :=
  if cfg.loader.usesFallbackConfig then
    { store := store, result := Except.ok (), saveCalls := 0 }
  else
    match saveConfigRun cs es store cfg.app with
    | (store1, some e) =>
        { store := store1
          result := Except.error (GoErr.wrap "failed to save current config" e)
          saveCalls := 1 }
    | (store1, none) => { store := store1, result := Except.ok (), saveCalls := 1 }

/-- Pointer addresses, for the parts of the model where aliasing of
`Config.App` matters. -/
abbrev Addr := Nat

/-- The heap cells holding `SomeAppConfig` values. -/
abbrev Heap := Addr → SomeAppConfig

/-- Mirrors Go `Config()` (src/main.go lines 463-465) at the pointer
level: `*l.cfg` copies the embedded `LoaderConfig` by value, while the
`App interface{}` field copies the pointer, so the snapshot shares the
pointed-to `SomeAppConfig` cell with the loader. -/
structure ConfigSnapshot where
  loader : LoaderConfig
  appPtr : Addr
deriving DecidableEq

/-- `Config()` as a heap-level accessor. -/
def configAccessor (lcfg : LoaderConfig) (p : Addr) : ConfigSnapshot :=
  { loader := lcfg, appPtr := p }

/-- Mirrors Go `loadLastKnownGoodConfig` at the pointer level:
`gob.NewDecoder(f).Decode(l.cfg.App)` decodes into the cell `l.cfg.App`
already points at, so a successful load updates that same cell in the
heap; no new cell is allocated and the pointer is unchanged. -/
def loadLastKnownGoodConfigHeap (store : FileSys) (h : Heap) (p : Addr) :
    Except GoErr Heap :=
  match store with
  | none => Except.error (GoErr.errorNew "last known good config does not exist")
  | some items =>
      match gobDecodeMerge items (h p) with
      | Except.error e => Except.error e
      | Except.ok c => Except.ok (Function.update h p c)

/-! ## Helper lemmas -/

theorem digRootCause_not_digWrap (e : GoErr) :
    ∀ s c, digRootCause e ≠ GoErr.digWrap s c := by
  induction e with
  | errorNew s => intro s c h; exact absurd h (by simp [digRootCause])
  | wrap s e ih => intro s c h; exact absurd h (by simp [digRootCause])
  | digWrap s e ih => intro t c h; exact ih t c (by simpa [digRootCause] using h)
  | badConfig e ih => intro s c h; exact absurd h (by simp [digRootCause])

theorem unwrapBadConfigError_true_iff (e : GoErr) :
    (unwrapBadConfigError e).2 = true ↔ ∃ c, digRootCause e = GoErr.badConfig c := by
  unfold unwrapBadConfigError
  cases h : digRootCause e <;> simp [h]

theorem unwrapBadConfigError_of_bad {e c : GoErr}
    (h : digRootCause e = GoErr.badConfig c) :
    unwrapBadConfigError e = (GoErr.badConfig c, true) := by
  unfold unwrapBadConfigError
  rw [h]

theorem unwrapBadConfigError_of_not_bad {e : GoErr}
    (h : ∀ c, digRootCause e ≠ GoErr.badConfig c) :
    unwrapBadConfigError e = (e, false) := by
  unfold unwrapBadConfigError
  cases h2 : digRootCause e with
  | badConfig c => exact absurd h2 (h c)
  | errorNew s => rfl
  | wrap s c => rfl
  | digWrap s c => rfl

theorem gobDecodeMerge_gobEncode (c : SomeAppConfig) :
    gobDecodeMerge (gobEncode c) c = Except.ok c := by
  obtain ⟨⟨rt⟩, ⟨host, port⟩⟩ := c
  unfold gobEncode gobDecodeMerge
  by_cases h1 : rt = 0 <;>
    by_cases h2 : host = "" <;>
      by_cases h3 : port = 0 <;>
        simp [h1, h2, h3, gobApplyItem]

theorem firstConfig_ignoreFallback (env : Env) (app0 : SomeAppConfig) :
    (firstConfig env app0).loader.ignoreFallbackConfig = env.ignoreFallback.getD false := by
  simp [firstConfig, initLoaderConfigFromEnv]

/-! ## Concrete fixtures (used by counterexamples and witnesses) -/

/-- A previously persisted good configuration. -/
def cfgGood : SomeAppConfig :=
  { echoHandler := { responseTimeout := 3 }
    server := { host := "localhost", port := 8080 } }

/-- An environment-supplied configuration the example app rejects
(port 9999 outside 8000-8999). -/
def cfgRejected : SomeAppConfig :=
  { echoHandler := { responseTimeout := 3 }
    server := { host := "example.com", port := 9999 } }

/-- A representative envconfig parse error. -/
def parseCause : GoErr :=
  GoErr.errorNew "envconfig.Process: converting APP_SERVER_PORT to int: invalid syntax"

/-- An environment whose application config fails to parse; fallback not
ignored. -/
def envParseFail : Env :=
  { ignoreFallback := none, startTimeout := none, stopTimeout := none
    usesFallback := none, configError := none
    appParse := Except.error parseCause }

/-- An environment that parses into the rejected configuration; fallback
not ignored. -/
def envOk : Env :=
  { ignoreFallback := none, startTimeout := none, stopTimeout := none
    usesFallback := none, configError := none
    appParse := Except.ok cfgRejected }

/-- Same environment with LOADER_IGNORE_FALLBACK_CONFIG=true. -/
def envOkIgnore : Env :=
  { ignoreFallback := some true, startTimeout := none, stopTimeout := none
    usesFallback := none, configError := none
    appParse := Except.ok cfgRejected }

/-- The builder failure for the rejected port, as the controller sees it:
the container's own wrapping around the provider's `BadConfigError`. -/
def badPortErr : GoErr :=
  GoErr.digWrap "could not build arguments for function"
    (GoErr.badConfig (GoErr.errorNew "server port should be between 8000 and 8999"))

/-- A non-config build failure, wrapped by the container. -/
def otherBuildErr : GoErr :=
  GoErr.digWrap "could not build arguments for function"
    (GoErr.errorNew "listen tcp: address already in use")

/-- A builder that rejects the environment configuration with `BadConfig`
but accepts the fallback configuration. -/
def builderRejectsCurrent : Config → Option GoErr :=
  fun cfg => if cfg.loader.usesFallbackConfig then none else some badPortErr

/-- A builder that accepts everything. -/
def builderAccepts : Config → Option GoErr := fun _ => none

/-- A builder that always rejects with `BadConfig`. -/
def builderAlwaysRejects : Config → Option GoErr := fun _ => some badPortErr

/-- A builder that always fails with a non-config failure. -/
def builderOther : Config → Option GoErr := fun _ => some otherBuildErr

/-- A store holding the persisted good configuration. -/
def goodStore : FileSys := some (gobEncode cfgGood)

/-! ## Claim theorems -/

/-- C1 counterexample: with the application-config parse failing,
ignoreFallback unset, and a persisted good configuration in the store,
`createApp` returns the wrapped parse error — the controller never
attempts rollback (no fallback load) and never reaches Started, contrary
to the claim. -/
theorem createApp_parse_failure_cex :
    (createApp envParseFail builderAccepts goodStore).result =
      Except.error (GoErr.wrap "failed to load current config from env" parseCause) ∧
    (createApp envParseFail builderAccepts goodStore).loadCalls = 0 ∧
    (createApp envParseFail builderAccepts goodStore).buildArgs = [] := by
  decide

/-- C1 (amended): on a `ConfigParseFailure` the controller transitions to
Failed immediately with the wrapped parse cause, never invoking AppBuilder
and never consulting the fallback store, regardless of `ignoreFallback`
and of the store contents (src/main.go lines 329-332). -/
theorem createApp_parse_failure_fails_fast (env : Env)
    (builder : Config → Option GoErr) (store : FileSys) (e : GoErr)
    (h : env.appParse = Except.error e) :
    createApp env builder store =
      { result := Except.error (GoErr.wrap "failed to load current config from env" e)
        buildArgs := []
        loadCalls := 0 } := by
  simp [createApp, h]

/-- C1 witness: the amended theorem applied to the concrete parse-failure
environment. -/
theorem createApp_parse_failure_fails_fast_witness :
    createApp envParseFail builderAccepts goodStore =
      { result := Except.error (GoErr.wrap "failed to load current config from env" parseCause)
        buildArgs := []
        loadCalls := 0 } :=
  createApp_parse_failure_fails_fast envParseFail builderAccepts goodStore parseCause rfl

/-- C4: whenever LOADER_IGNORE_FALLBACK_CONFIG is true, the fallback
store is never opened during the bootstrap attempt, a parse failure
returns the wrapped parse error immediately, and a build rejection (of
either kind) returns an error immediately (src/main.go lines 329-332 and
355-357). -/
theorem createApp_ignoreFallback_no_load (env : Env)
    (builder : Config → Option GoErr) (store : FileSys)
    (hig : env.ignoreFallback = some true) :
    (createApp env builder store).loadCalls = 0 ∧
    (∀ e, env.appParse = Except.error e →
      (createApp env builder store).result =
        Except.error (GoErr.wrap "failed to load current config from env" e)) ∧
    (∀ app0 e, env.appParse = Except.ok app0 →
      builder (firstConfig env app0) = some e →
      ∃ E, (createApp env builder store).result = Except.error E) := by
  refine ⟨?_, ?_, ?_⟩
  · cases hp : env.appParse with
    | error e => simp [createApp, hp]
    | ok app0 =>
      cases hb : builder (firstConfig env app0) with
      | none => simp [createApp, hp, hb]
      | some e =>
        cases hu : (unwrapBadConfigError e).2 with
        | false => simp [createApp, hp, hb, hu]
        | true =>
          simp [createApp, hp, hb, hu, firstConfig_ignoreFallback, hig]
  · intro e hp
    simp [createApp, hp]
  · intro app0 e hp hb
    cases hu : (unwrapBadConfigError e).2 with
    | false =>
      exact ⟨GoErr.wrap "failed to create app with current config" e,
        by simp [createApp, hp, hb, hu]⟩
    | true =>
      exact ⟨GoErr.errorNew
          "failed to create app with current config and fallback config is ignored",
        by simp [createApp, hp, hb, hu, firstConfig_ignoreFallback, hig]⟩

/-- C4 witness: the theorem applied to the concrete environment with
ignoreFallback set and the rejecting builder. -/
theorem createApp_ignoreFallback_no_load_witness :
    (createApp envOkIgnore builderAlwaysRejects goodStore).loadCalls = 0 ∧
    ((createApp envOkIgnore builderAlwaysRejects goodStore).result =
        Except.error (GoErr.errorNew
          "failed to create app with current config and fallback config is ignored") ∧
      ∃ E, (createApp envOkIgnore builderAlwaysRejects goodStore).result = Except.error E) :=
  ⟨(createApp_ignoreFallback_no_load envOkIgnore builderAlwaysRejects goodStore rfl).1,
    by decide,
    (createApp_ignoreFallback_no_load envOkIgnore builderAlwaysRejects goodStore rfl).2.2
      cfgRejected badPortErr rfl rfl⟩

/-- In any run of `createApp` the container is invoked at most twice:
the source has exactly two textual `fx.New` calls and no loop. -/
theorem buildArgs_length_le_two (env : Env) (builder : Config → Option GoErr)
    (store : FileSys) : ((createApp env builder store).buildArgs).length ≤ 2 := by
  cases hp : env.appParse with
  | error e => simp [createApp, hp]
  | ok app0 =>
    cases hb : builder (firstConfig env app0) with
    | none => simp [createApp, hp, hb]
    | some e =>
      cases hu : (unwrapBadConfigError e).2 with
      | false => simp [createApp, hp, hb, hu]
      | true =>
        cases hig : (firstConfig env app0).loader.ignoreFallbackConfig with
        | true => simp [createApp, hp, hb, hu, hig]
        | false =>
          cases hl : loadLastKnownGoodConfig store app0 with
          | error e2 => simp [createApp, hp, hb, hu, hig, hl]
          | ok app1 =>
            cases hb2 : builder (fallbackConfig env (unwrapBadConfigError e).1 app1) with
            | some e3 => simp [createApp, hp, hb, hu, hig, hl, hb2]
            | none => simp [createApp, hp, hb, hu, hig, hl, hb2]

/-- The root cause of the concrete non-config build failure. -/
theorem digRootCause_otherBuildErr :
    digRootCause otherBuildErr = GoErr.errorNew "listen tcp: address already in use" := by
  decide

/-- C2: with a first-build rejection whose root cause is `BadConfig`,
fallback not ignored, and a successful fallback load, the controller
marks `usesFallbackConfig`, records `configError` as the rejection's
error text, and re-runs the build exactly once with the fallback
configuration; a rejection of that rebuild yields Failed, and no run of
`createApp`, on any input, builds more than twice (src/main.go lines
359-373). -/
theorem createApp_badConfig_rollback_once (env : Env)
    (builder : Config → Option GoErr) (store : FileSys)
    (app0 app1 : SomeAppConfig) (e c : GoErr)
    (hp : env.appParse = Except.ok app0)
    (hb : builder (firstConfig env app0) = some e)
    (hroot : digRootCause e = GoErr.badConfig c)
    (hig : (firstConfig env app0).loader.ignoreFallbackConfig = false)
    (hl : loadLastKnownGoodConfig store app0 = Except.ok app1) :
    (createApp env builder store).buildArgs =
      [firstConfig env app0, fallbackConfig env (GoErr.badConfig c) app1] ∧
    (fallbackConfig env (GoErr.badConfig c) app1).loader.usesFallbackConfig = true ∧
    (fallbackConfig env (GoErr.badConfig c) app1).loader.configError =
      errorString (GoErr.badConfig c) ∧
    (∀ e3, builder (fallbackConfig env (GoErr.badConfig c) app1) = some e3 →
      (createApp env builder store).result =
        Except.error (GoErr.wrap "failed to create app with last known good config" e3)) ∧
    (builder (fallbackConfig env (GoErr.badConfig c) app1) = none →
      (createApp env builder store).result =
        Except.ok (fallbackConfig env (GoErr.badConfig c) app1)) ∧
    (∀ env2 : Env, ∀ builder2 : Config → Option GoErr, ∀ store2 : FileSys,
      ((createApp env2 builder2 store2).buildArgs).length ≤ 2) := by
  have hu1 : (unwrapBadConfigError e).1 = GoErr.badConfig c := by
    rw [unwrapBadConfigError_of_bad hroot]
  have hu2 : (unwrapBadConfigError e).2 = true := by
    rw [unwrapBadConfigError_of_bad hroot]
  refine ⟨?_, by simp [fallbackConfig, fallbackLoaderConfig],
    by simp [fallbackConfig, fallbackLoaderConfig], ?_, ?_,
    fun env2 builder2 store2 => buildArgs_length_le_two env2 builder2 store2⟩
  · cases hb2 : builder (fallbackConfig env (GoErr.badConfig c) app1) with
    | some e3 => simp [createApp, hp, hb, hu2, hu1, hig, hl, hb2]
    | none => simp [createApp, hp, hb, hu2, hu1, hig, hl, hb2]
  · intro e3 hb2
    simp [createApp, hp, hb, hu2, hu1, hig, hl, hb2]
  · intro hb2
    simp [createApp, hp, hb, hu2, hu1, hig, hl, hb2]

/-- C2 witness: the theorem applied to the concrete rejected
configuration, the persisted good store, and a builder that rejects the
fallback as well — the rebuild happens exactly once and its rejection is
Failed. -/
theorem createApp_badConfig_rollback_once_witness :
    (createApp envOk builderAlwaysRejects goodStore).buildArgs =
      [firstConfig envOk cfgRejected,
        fallbackConfig envOk
          (GoErr.badConfig (GoErr.errorNew "server port should be between 8000 and 8999"))
          cfgGood] ∧
    (createApp envOk builderAlwaysRejects goodStore).result =
      Except.error
        (GoErr.wrap "failed to create app with last known good config" badPortErr) := by
  have h := createApp_badConfig_rollback_once envOk builderAlwaysRejects goodStore
    cfgRejected cfgGood badPortErr
    (GoErr.errorNew "server port should be between 8000 and 8999")
    rfl rfl rfl (by decide) (by decide)
  exact ⟨h.1, h.2.2.2.1 badPortErr rfl⟩

/-- C3 counterexample: a non-config build failure that the container has
wrapped is propagated still wrapped — `createApp` returns it inside its
own context wrap with the dig framing intact, so the failure is not
"unwrapped of container-specific framing" as the claim states; the store
is still never consulted. -/
theorem createApp_other_failure_framing_cex :
    (createApp envOk builderOther goodStore).result =
      Except.error (GoErr.wrap "failed to create app with current config" otherBuildErr) ∧
    containsDigWrap (GoErr.wrap "failed to create app with current config" otherBuildErr) =
      true ∧
    (createApp envOk builderOther goodStore).loadCalls = 0 := by
  decide

/-- C3 (amended): a first-build failure triggers the rollback
classification exactly when its root cause under `dig.RootCause`
unwrapping is `BadConfigError`; any other failure transitions to Failed
immediately, without consulting the store, propagated with the build
error intact (container framing preserved) inside the controller's
context wrap; and when the root cause is `BadConfig` and fallback is not
ignored, the store is consulted (src/main.go lines 350-357 and 477-483). -/
theorem createApp_rollback_iff_badConfig_root (env : Env)
    (builder : Config → Option GoErr) (store : FileSys)
    (app0 : SomeAppConfig) (e : GoErr)
    (hp : env.appParse = Except.ok app0)
    (hb : builder (firstConfig env app0) = some e) :
    ((unwrapBadConfigError e).2 = true ↔ ∃ c, digRootCause e = GoErr.badConfig c) ∧
    ((∀ c, digRootCause e ≠ GoErr.badConfig c) →
      (createApp env builder store).result =
        Except.error (GoErr.wrap "failed to create app with current config" e) ∧
      (createApp env builder store).loadCalls = 0) ∧
    (∀ c, digRootCause e = GoErr.badConfig c →
      (firstConfig env app0).loader.ignoreFallbackConfig = false →
      (createApp env builder store).loadCalls = 1) := by
  refine ⟨unwrapBadConfigError_true_iff e, ?_, ?_⟩
  · intro hnb
    have hu2 : (unwrapBadConfigError e).2 = false := by
      rw [unwrapBadConfigError_of_not_bad hnb]
    constructor <;> simp [createApp, hp, hb, hu2]
  · intro c hroot hig
    have hu1 : (unwrapBadConfigError e).1 = GoErr.badConfig c := by
      rw [unwrapBadConfigError_of_bad hroot]
    have hu2 : (unwrapBadConfigError e).2 = true := by
      rw [unwrapBadConfigError_of_bad hroot]
    cases hl : loadLastKnownGoodConfig store app0 with
    | error e2 => simp [createApp, hp, hb, hu2, hig, hl]
    | ok app1 =>
      cases hb2 : builder (fallbackConfig env (GoErr.badConfig c) app1) with
      | some e3 => simp [createApp, hp, hb, hu2, hu1, hig, hl, hb2]
      | none => simp [createApp, hp, hb, hu2, hu1, hig, hl, hb2]

/-- C3 witness: the amended theorem applied to the concrete non-config
failure — the iff classifies it as not `BadConfig`, and the run fails
immediately with the framed error and no store access. -/
theorem createApp_rollback_iff_badConfig_root_witness :
    ((unwrapBadConfigError otherBuildErr).2 = true ↔
      ∃ c, digRootCause otherBuildErr = GoErr.badConfig c) ∧
    (createApp envOk builderOther goodStore).result =
      Except.error (GoErr.wrap "failed to create app with current config" otherBuildErr) ∧
    (createApp envOk builderOther goodStore).loadCalls = 0 := by
  have h := createApp_rollback_iff_badConfig_root envOk builderOther goodStore
    cfgRejected otherBuildErr rfl rfl
  have hnb : ∀ c, digRootCause otherBuildErr ≠ GoErr.badConfig c := by
    intro c hc
    rw [digRootCause_otherBuildErr] at hc
    exact GoErr.noConfusion hc
  exact ⟨h.1, (h.2.1 hnb).1, (h.2.1 hnb).2⟩

/-- Helper: the text of a `BadConfigError` is never the empty string. -/
theorem badConfigText_ne_empty (s : String) : "bad config: " ++ s ≠ "" := by
  intro h
  have hd : ("bad config: " ++ s).data = [] := by rw [h]
  rw [String.data_append] at hd
  exact absurd (List.append_eq_nil.mp hd).1 (by decide)

/-- C5: when `UsesFallbackConfig` is false, `Start` calls `saveConfig`
once with the configuration just used — on success the store holds its
encoding, on failure `Start` returns the wrapped save error (Failed) even
though the app was built; when `UsesFallbackConfig` is true, `saveConfig`
is never called and the persisted record is unchanged (src/main.go lines
385-390). -/
theorem startRun_persistence (cfg : Config) (cs : CreateStep) (es : EncodeStep)
    (store : FileSys) :
    (cfg.loader.usesFallbackConfig = true →
      startRun cfg cs es store =
        { store := store, result := Except.ok (), saveCalls := 0 }) ∧
    (cfg.loader.usesFallbackConfig = false →
      (startRun cfg cs es store).saveCalls = 1 ∧
      (∀ e, (saveConfigRun cs es store cfg.app).2 = some e →
        (startRun cfg cs es store).result =
          Except.error (GoErr.wrap "failed to save current config" e)) ∧
      ((saveConfigRun cs es store cfg.app).2 = none →
        (startRun cfg cs es store).store = some (gobEncode cfg.app) ∧
        (startRun cfg cs es store).result = Except.ok ())) := by
  constructor
  · intro h
    simp [startRun, h]
  · intro h
    cases cs <;> cases es <;> simp [startRun, saveConfigRun, h]

/-- C5 witness: the theorem applied to a non-fallback config with a
fully successful save. -/
theorem startRun_persistence_witness :
    (startRun (firstConfig envOk cfgRejected) CreateStep.ok EncodeStep.ok goodStore).saveCalls = 1 ∧
    (startRun (firstConfig envOk cfgRejected) CreateStep.ok EncodeStep.ok goodStore).store =
      some (gobEncode cfgRejected) ∧
    (startRun (firstConfig envOk cfgRejected) CreateStep.ok EncodeStep.ok goodStore).result =
      Except.ok () := by
  have h := (startRun_persistence (firstConfig envOk cfgRejected)
    CreateStep.ok EncodeStep.ok goodStore).2 (by decide)
  exact ⟨h.1, (h.2.2 rfl).1, (h.2.2 rfl).2⟩

/-- C6 (code bug): `saveConfig` is not atomic — `os.Create` truncates the
record before the encoder writes, so a save whose encode step fails (or a
crash between the two steps, the middle entry of
`saveConfigFileStates`) leaves an empty file in place of the previously
persisted record, which a subsequent load rejects instead of reading the
old record unchanged. -/
theorem saveConfig_torn_write :
    (saveConfigRun CreateStep.ok EncodeStep.fails goodStore cfgRejected).1 = some [] ∧
    (saveConfigRun CreateStep.ok EncodeStep.fails goodStore cfgRejected).2 =
      some (GoErr.errorNew "gob: encoder write error") ∧
    saveConfigFileStates goodStore cfgRejected =
      [goodStore, some [], some (gobEncode cfgRejected)] ∧
    (some [] : FileSys) ≠ goodStore ∧
    loadLastKnownGoodConfig (some []) cfgRejected =
      Except.error (GoErr.errorNew "unexpected EOF") := by
  decide

/-- C7 counterexample: rollback does not replace the `AppConfig` object —
it decodes into the cell the shared pointer references, so a snapshot
captured via the accessor before the rollback observes the new value
through its pointer: reading the captured snapshot's cell after the
rollback yields the fallback config, no longer the pre-rollback value. -/
theorem loadLastKnownGoodConfigHeap_mutates_cex :
    (loadLastKnownGoodConfigHeap goodStore (fun _ => cfgRejected) 0).map
        (fun h => h (configAccessor (initLoaderConfigFromEnv none none none none none) 0).appPtr) =
      Except.ok cfgGood ∧
    cfgGood ≠ cfgRejected := by
  decide

/-- C7 (amended): a successful rollback load mutates the pointed-to
`AppConfig` cell in place: the heap is updated at the existing address,
any snapshot captured earlier (sharing that address) now reads the
decoded fallback value through it, and every other cell is untouched. -/
theorem loadLastKnownGoodConfigHeap_in_place (store : FileSys) (h : Heap) (p : Addr)
    (items : List GobItem) (c : SomeAppConfig)
    (hs : store = some items)
    (hd : gobDecodeMerge items (h p) = Except.ok c) :
    loadLastKnownGoodConfigHeap store h p = Except.ok (Function.update h p c) ∧
    (∀ l : LoaderConfig, Function.update h p c (configAccessor l p).appPtr = c) ∧
    (∀ q, q ≠ p → Function.update h p c q = h q) := by
  subst hs
  refine ⟨by simp [loadLastKnownGoodConfigHeap, hd], ?_, ?_⟩
  · intro l
    simp [configAccessor]
  · intro q hq
    exact Function.update_noteq hq c h

/-- C7 witness: the amended theorem applied to the concrete heap with the
rejected config in every cell and the good config in the store. -/
theorem loadLastKnownGoodConfigHeap_in_place_witness :
    loadLastKnownGoodConfigHeap goodStore (fun _ => cfgRejected) 0 =
      Except.ok (Function.update (fun _ => cfgRejected) 0 cfgGood) ∧
    Function.update (fun _ => cfgRejected) 0 cfgGood
      (configAccessor (initLoaderConfigFromEnv none none none none none) 0).appPtr = cfgGood ∧
    Function.update (fun _ => cfgRejected) 0 cfgGood 1 = cfgRejected := by
  have h := loadLastKnownGoodConfigHeap_in_place goodStore (fun _ => cfgRejected) 0
    (gobEncode cfgGood) cfgGood rfl (by decide)
  exact ⟨h.1, h.2.1 (initLoaderConfigFromEnv none none none none none), h.2.2 1 (by decide)⟩

/-- The gob merge of a decoded value into a decode target: fields of c
transmitted by gob (the non-zero ones) override the target, the omitted
(zero-valued) fields of c retain the target's values. -/
def gobOverlay (c t : SomeAppConfig) : SomeAppConfig :=
  { echoHandler := { responseTimeout := if c.echoHandler.responseTimeout = 0 then t.echoHandler.responseTimeout else c.echoHandler.responseTimeout }
    server := { host := if c.server.host = "" then t.server.host else c.server.host
                port := if c.server.port = 0 then t.server.port else c.server.port } }

/-- Helper: decoding the encoding of c into an arbitrary target t yields
exactly the gob merge of c into t. -/
theorem gobDecodeMerge_gobEncode_general (c t : SomeAppConfig) :
    gobDecodeMerge (gobEncode c) t = Except.ok (gobOverlay c t) := by
  obtain ⟨⟨rt⟩, ⟨host, port⟩⟩ := c
  unfold gobEncode gobDecodeMerge gobOverlay
  by_cases h1 : rt = 0 <;>
    by_cases h2 : host = "" <;>
      by_cases h3 : port = 0 <;>
        simp [h1, h2, h3, gobApplyItem]

/-- A configuration with a zero-valued field (gob omits it on encode). -/
def cfgZeroField : SomeAppConfig :=
  { echoHandler := { responseTimeout := 0 }
    server := { host := "h", port := 8080 } }

/-- C8 counterexample: the program's only load happens during rollback
and decodes into the env-parsed current configuration (src/main.go line
440), not into the saved value; gob omits zero-valued fields on encode
and keeps the target's values for them on decode, so loading after
save(cfgZeroField) with the rejected env config as decode target returns
a value that differs from cfgZeroField — its response timeout is the
target's 3, not the saved 0. -/
theorem save_load_roundtrip_cex :
    loadLastKnownGoodConfig
        ((saveConfigRun CreateStep.ok EncodeStep.ok goodStore cfgZeroField).1) cfgRejected =
      Except.ok (gobOverlay cfgZeroField cfgRejected) ∧
    gobOverlay cfgZeroField cfgRejected ≠ cfgZeroField ∧
    (gobOverlay cfgZeroField cfgRejected).echoHandler.responseTimeout = 3 := by
  decide

/-- C8 (amended): load after save(c) returns the gob merge of c into the
current decode target t (at rollback time, the env-parsed current
config): every non-zero field of c is reproduced, while each zero-valued
field of c retains t's value — so the loaded value equals c field-for-
field exactly when the merge collapses, in particular whenever the
decode target equals c.  Saving c twice leaves the store unchanged after
the first save, so the subsequently loaded value is also unchanged
(idempotence). -/
theorem save_load_gob_merge (c t : SomeAppConfig) (store : FileSys) :
    loadLastKnownGoodConfig ((saveConfigRun CreateStep.ok EncodeStep.ok store c).1) t =
      Except.ok (gobOverlay c t) ∧
    (saveConfigRun CreateStep.ok EncodeStep.ok
        ((saveConfigRun CreateStep.ok EncodeStep.ok store c).1) c).1 =
      (saveConfigRun CreateStep.ok EncodeStep.ok store c).1 ∧
    (t = c →
      loadLastKnownGoodConfig ((saveConfigRun CreateStep.ok EncodeStep.ok store c).1) t =
        Except.ok c) := by
  refine ⟨?_, rfl, ?_⟩
  · simp [saveConfigRun, loadLastKnownGoodConfig, gobDecodeMerge_gobEncode_general]
  · intro ht
    subst ht
    simp [saveConfigRun, loadLastKnownGoodConfig, gobDecodeMerge_gobEncode]

/-- C8 witness: the amended theorem applied with the decode target equal
to the saved configuration. -/
theorem save_load_gob_merge_witness :
    loadLastKnownGoodConfig
        ((saveConfigRun CreateStep.ok EncodeStep.ok none cfgGood).1) cfgGood =
      Except.ok cfgGood :=
  (save_load_gob_merge cfgGood cfgGood none).2.2 rfl

/-- C9 counterexample: a timeout explicitly set to 0 in the environment
is not taken as given — the 60-second default overrides it (the code only
tests for the zero value, so it cannot distinguish unset from set-to-0). -/
theorem initLoaderConfig_zero_timeout_cex :
    (initLoaderConfigFromEnv none none none (some 0) (some 0)).startTimeout =
      defaultLoaderStartTimeout ∧
    (initLoaderConfigFromEnv none none none (some 0) (some 0)).stopTimeout =
      defaultLoaderStopTimeout ∧
    defaultLoaderStartTimeout = 60000000000 ∧
    defaultLoaderStartTimeout ≠ 0 := by
  decide

/-- C9 (amended): either timeout defaults to 60 seconds whenever its
parsed value is zero — both when the variable is unset and when it is
explicitly set to 0 — and a nonzero value from the environment is taken
as given (src/main.go lines 406-419). -/
theorem initLoaderConfig_timeout_defaults (ig uses : Option Bool)
    (cfgErr : Option String) (st sp : Option Int) :
    (st = none → (initLoaderConfigFromEnv ig uses cfgErr st sp).startTimeout = defaultLoaderStartTimeout) ∧
    (sp = none → (initLoaderConfigFromEnv ig uses cfgErr st sp).stopTimeout = defaultLoaderStopTimeout) ∧
    (st = some 0 → (initLoaderConfigFromEnv ig uses cfgErr st sp).startTimeout = defaultLoaderStartTimeout) ∧
    (sp = some 0 → (initLoaderConfigFromEnv ig uses cfgErr st sp).stopTimeout = defaultLoaderStopTimeout) ∧
    (∀ v : Int, v ≠ 0 → st = some v →
      (initLoaderConfigFromEnv ig uses cfgErr st sp).startTimeout = v) ∧
    (∀ v : Int, v ≠ 0 → sp = some v →
      (initLoaderConfigFromEnv ig uses cfgErr st sp).stopTimeout = v) := by
  refine ⟨?_, ?_, ?_, ?_, ?_, ?_⟩
  · intro h; subst h; simp [initLoaderConfigFromEnv]
  · intro h; subst h; simp [initLoaderConfigFromEnv]
  · intro h; subst h; simp [initLoaderConfigFromEnv]
  · intro h; subst h; simp [initLoaderConfigFromEnv]
  · intro v hv h; subst h; simp [initLoaderConfigFromEnv, hv]
  · intro v hv h; subst h; simp [initLoaderConfigFromEnv, hv]

/-- C9 witness: the amended theorem applied with the start timeout unset
and the stop timeout set to a nonzero value. -/
theorem initLoaderConfig_timeout_defaults_witness :
    (initLoaderConfigFromEnv none none none none (some 5)).startTimeout =
      defaultLoaderStartTimeout ∧
    (initLoaderConfigFromEnv none none none none (some 5)).stopTimeout = 5 :=
  ⟨(initLoaderConfig_timeout_defaults none none none none (some 5)).1 rfl,
   (initLoaderConfig_timeout_defaults none none none none (some 5)).2.2.2.2.2 5
     (by decide) rfl⟩

/-- An environment that injects the untagged ConfigError loader field
(variable LOADER_CONFIGERROR) while supplying a valid app config. -/
def envInjectedError : Env :=
  { ignoreFallback := none, startTimeout := none, stopTimeout := none
    usesFallback := none, configError := some "operator injected"
    appParse := Except.ok cfgGood }

/-- C10 counterexample: `envconfig.Process` also fills the untagged
`ConfigError` field from LOADER_CONFIGERROR (and `UsesFallbackConfig`
from LOADER_USESFALLBACKCONFIG), so with that variable set and a
configuration the builder accepts, `LoadApp` succeeds on the first build
with `usesFallbackConfig = false` and a non-empty `configError` — the
claimed iff is false. -/
theorem loadApp_configError_invariant_cex :
    LoadApp envInjectedError builderAccepts none =
      Except.ok (firstConfig envInjectedError cfgGood) ∧
    (firstConfig envInjectedError cfgGood).loader.usesFallbackConfig = false ∧
    (firstConfig envInjectedError cfgGood).loader.configError = "operator injected" ∧
    ¬(((firstConfig envInjectedError cfgGood).loader.usesFallbackConfig = true) ↔
      ((firstConfig envInjectedError cfgGood).loader.configError ≠ "")) := by
  decide

/-- C10 (amended): after every successful `LoadApp` in an environment
that leaves the untagged loader variables LOADER_USESFALLBACKCONFIG and
LOADER_CONFIGERROR unset, the config snapshot satisfies the invariant
`UsesFallbackConfig = true` iff `ConfigError` is nonempty, and when it is
true, `ConfigError` is the text "bad config: " followed by the cause
text of the `BadConfigError` at the root of the first build's rejection
(src/main.go lines 364-365 and 473-475). -/
theorem loadApp_configError_invariant (env : Env) (builder : Config → Option GoErr)
    (store : FileSys) (cfg : Config)
    (huf : env.usesFallback = none)
    (hce : env.configError = none)
    (h : LoadApp env builder store = Except.ok cfg) :
    (cfg.loader.usesFallbackConfig = true ↔ cfg.loader.configError ≠ "") ∧
    (cfg.loader.usesFallbackConfig = true →
      ∃ app0 e c, env.appParse = Except.ok app0 ∧
        builder (firstConfig env app0) = some e ∧
        digRootCause e = GoErr.badConfig c ∧
        cfg.loader.configError = "bad config: " ++ errorString c) := by
  unfold LoadApp at h
  cases hp : env.appParse with
  | error e => simp [createApp, hp] at h
  | ok app0 =>
    cases hb : builder (firstConfig env app0) with
    | none =>
      simp [createApp, hp, hb] at h
      subst h
      constructor
      · simp [firstConfig, initLoaderConfigFromEnv, huf, hce]
      · intro hf
        simp [firstConfig, initLoaderConfigFromEnv, huf] at hf
    | some e =>
      cases hu : (unwrapBadConfigError e).2 with
      | false => simp [createApp, hp, hb, hu] at h
      | true =>
        obtain ⟨c, hroot⟩ := (unwrapBadConfigError_true_iff e).mp hu
        have hu1 : (unwrapBadConfigError e).1 = GoErr.badConfig c := by
          rw [unwrapBadConfigError_of_bad hroot]
        cases hig : (firstConfig env app0).loader.ignoreFallbackConfig with
        | true => simp [createApp, hp, hb, hu, hig] at h
        | false =>
          cases hl : loadLastKnownGoodConfig store app0 with
          | error e2 => simp [createApp, hp, hb, hu, hig, hl] at h
          | ok app1 =>
            cases hb2 : builder (fallbackConfig env (unwrapBadConfigError e).1 app1) with
            | some e3 => simp [createApp, hp, hb, hu, hig, hl, hb2] at h
            | none =>
              simp [createApp, hp, hb, hu, hig, hl, hb2] at h
              subst h
              constructor
              · simp [fallbackConfig, fallbackLoaderConfig, hu1, errorString,
                  badConfigText_ne_empty]
              · intro _
                exact ⟨app0, e, c, rfl, hb, hroot,
                  by simp [fallbackConfig, fallbackLoaderConfig, hu1, errorString]⟩

/-- C10 witness: the amended theorem applied to the concrete run, with
the untagged loader variables unset, that succeeds through rollback. -/
theorem loadApp_configError_invariant_witness :
    ((fallbackConfig envOk
        (GoErr.badConfig (GoErr.errorNew "server port should be between 8000 and 8999"))
        cfgGood).loader.usesFallbackConfig = true ↔
      (fallbackConfig envOk
        (GoErr.badConfig (GoErr.errorNew "server port should be between 8000 and 8999"))
        cfgGood).loader.configError ≠ "") ∧
    (∃ app0 e c, envOk.appParse = Except.ok app0 ∧
      builderRejectsCurrent (firstConfig envOk app0) = some e ∧
      digRootCause e = GoErr.badConfig c ∧
      (fallbackConfig envOk
        (GoErr.badConfig (GoErr.errorNew "server port should be between 8000 and 8999"))
        cfgGood).loader.configError = "bad config: " ++ errorString c) := by
  have h := loadApp_configError_invariant envOk builderRejectsCurrent goodStore
    (fallbackConfig envOk
      (GoErr.badConfig (GoErr.errorNew "server port should be between 8000 and 8999"))
      cfgGood)
    rfl rfl (by decide)
  exact ⟨h.1, h.2 (by decide)⟩

end FxRollback

